import Mathlib

/-!
# Verification of the mongo-go-driver change-stream subsystem

This development contains a shallow embedding of two parts of the repository:

* `mongo/integration/unified/event.go`: the monitoring-event-type constants
  and the case-insensitive matcher `monitoringEventTypeFromString`, embedded
  from the source with the external library function `strings.ToLower`
  abstracted as a parameter constrained by two of its properties.
* The resumable change-stream cursor.  Its implementation is not part of the
  given sources (only its integration tests in the `integration` package
  are), so the data model and the operations (token tracker, batch cursor,
  pipeline builder, resumable stream controller) are modelled from the
  specification, with mock server interaction represented as a script of
  responses consumed in order, exactly as the mock-based tests drive it.
-/

/-! ## Embedding of `event.go` -/

/-- The ASCII fragment of the per-character lowercase mapping of Go's
`strings.ToLower`: an upper-case ASCII letter is shifted by 32, every other
character is left unchanged.  `strings.ToLower` agrees with this map on
strings of ASCII characters (which all nineteen event names are); its
behavior on the rest of Unicode is not reproduced here but abstracted as the
`lower` parameter of `monitoringEventTypeFromString` below. -/
def goToLowerChar (c : Char) : Char :=
  if 65 ≤ c.toNat && c.toNat ≤ 90 then Char.ofNat (c.toNat + 32) else c

/-- The ASCII character map applied pointwise: the restriction of
`strings.ToLower` to all-ASCII strings. -/
def goToLower (s : String) : String :=
  String.mk (s.data.map goToLowerChar)

/-- Embedding of Go's `type monitoringEventType string`. -/
abbrev monitoringEventType := String

def commandStartedEvent : monitoringEventType := "CommandStartedEvent"

def commandSucceededEvent : monitoringEventType := "CommandSucceededEvent"

def commandFailedEvent : monitoringEventType := "CommandFailedEvent"

def poolCreatedEvent : monitoringEventType := "PoolCreatedEvent"

def poolReadyEvent : monitoringEventType := "PoolReadyEvent"

def poolClearedEvent : monitoringEventType := "PoolClearedEvent"

def poolClosedEvent : monitoringEventType := "PoolClosedEvent"

def connectionCreatedEvent : monitoringEventType := "ConnectionCreatedEvent"

def connectionReadyEvent : monitoringEventType := "ConnectionReadyEvent"

def connectionClosedEvent : monitoringEventType := "ConnectionClosedEvent"

def connectionCheckOutStartedEvent : monitoringEventType := "ConnectionCheckOutStartedEvent"

def connectionCheckOutFailedEvent : monitoringEventType := "ConnectionCheckOutFailedEvent"

def connectionCheckedOutEvent : monitoringEventType := "ConnectionCheckedOutEvent"

def connectionCheckedInEvent : monitoringEventType := "ConnectionCheckedInEvent"

def serverDescriptionChangedEvent : monitoringEventType := "ServerDescriptionChangedEvent"

def serverHeartbeatFailedEvent : monitoringEventType := "ServerHeartbeatFailedEvent"

def serverHeartbeatStartedEvent : monitoringEventType := "ServerHeartbeatStartedEvent"

def serverHeartbeatSucceededEvent : monitoringEventType := "ServerHeartbeatSucceededEvent"

def topologyDescriptionChangedEvent : monitoringEventType := "TopologyDescriptionChangedEvent"

/-- The monitoring-event-type constants declared in `event.go`, in declaration
order (`commandStartedEvent` through `topologyDescriptionChangedEvent`). -/
def declaredMonitoringEventTypes : List monitoringEventType :=
  [commandStartedEvent, commandSucceededEvent, commandFailedEvent,
   poolCreatedEvent, poolReadyEvent, poolClearedEvent, poolClosedEvent,
   connectionCreatedEvent, connectionReadyEvent, connectionClosedEvent,
   connectionCheckOutStartedEvent, connectionCheckOutFailedEvent,
   connectionCheckedOutEvent, connectionCheckedInEvent,
   serverDescriptionChangedEvent, serverHeartbeatFailedEvent,
   serverHeartbeatStartedEvent, serverHeartbeatSucceededEvent,
   topologyDescriptionChangedEvent]

/-- Embedding of `monitoringEventTypeFromString`: Go's `switch` on
`strings.ToLower(eventStr)` is a sequential comparison against the lowered
names, with the default branch returning the empty name and `false`.  The
library function `strings.ToLower` is external to this repository, and its
full Unicode simple-case-mapping table is not reproduced here: it enters as
the parameter `lower`, of which the theorems below assume only that it
agrees with the ASCII map `goToLower` on all-ASCII strings and that it is
idempotent — both properties of `strings.ToLower`. -/
def monitoringEventTypeFromString (lower : String → String) (eventStr : String) :
    monitoringEventType × Bool :=
  if lower eventStr = "commandstartedevent" then (commandStartedEvent, true)
  else if lower eventStr = "commandsucceededevent" then (commandSucceededEvent, true)
  else if lower eventStr = "commandfailedevent" then (commandFailedEvent, true)
  else if lower eventStr = "poolcreatedevent" then (poolCreatedEvent, true)
  else if lower eventStr = "poolreadyevent" then (poolReadyEvent, true)
  else if lower eventStr = "poolclearedevent" then (poolClearedEvent, true)
  else if lower eventStr = "poolclosedevent" then (poolClosedEvent, true)
  else if lower eventStr = "connectioncreatedevent" then (connectionCreatedEvent, true)
  else if lower eventStr = "connectionreadyevent" then (connectionReadyEvent, true)
  else if lower eventStr = "connectionclosedevent" then (connectionClosedEvent, true)
  else if lower eventStr = "connectioncheckoutstartedevent" then (connectionCheckOutStartedEvent, true)
  else if lower eventStr = "connectioncheckoutfailedevent" then (connectionCheckOutFailedEvent, true)
  else if lower eventStr = "connectioncheckedoutevent" then (connectionCheckedOutEvent, true)
  else if lower eventStr = "connectioncheckedinevent" then (connectionCheckedInEvent, true)
  else if lower eventStr = "serverdescriptionchangedevent" then (serverDescriptionChangedEvent, true)
  else if lower eventStr = "serverheartbeatfailedevent" then (serverHeartbeatFailedEvent, true)
  else if lower eventStr = "serverheartbeatstartedevent" then (serverHeartbeatStartedEvent, true)
  else if lower eventStr = "serverheartbeatsucceededevent" then (serverHeartbeatSucceededEvent, true)
  else if lower eventStr = "topologydescriptionchangedevent" then (topologyDescriptionChangedEvent, true)
  else ("", false)

/-! ## Model of the resumable change-stream cursor

Modelled from the spec: the change-stream implementation itself (the token
tracker, batch cursor adapter, pipeline builder and resumable stream
controller of spec sections 3, 4.1 to 4.4 and 7) is not among the given
source files; only its integration tests are.  The server is represented by
a script of responses consumed in order, one response per issued command
(aggregate, getMore or killCursors), exactly as the mock-based tests
(`mtest.AddMockResponses`) drive the subsystem.  Every operation returns,
besides its result, the unconsumed remainder of the script and the trace of
commands it issued. -/

/-- Modelled from the spec: a resume token is an opaque serialized document,
only stored and compared; it is represented by an abstract numeric code. -/
abbrev Token := Nat

/-- Modelled from the spec: a change document delivered by the server; `id?`
is its identity (`_id`) field, the resume token, which a malformed document
may lack; the rest of the document is opaque. -/
structure ChangeDoc where
  id? : Option Token
  payload : Nat
  deriving DecidableEq

/-- Modelled from the spec (section 7): a command error as reported by the
server, carrying a label set, a status code, and whether it was a
network-level failure with no server reply. -/
structure CmdError where
  labels : List String
  code : Nat
  isNetwork : Bool
  deriving DecidableEq

def resumableLabel : String := "ResumableChangeStreamError"

/-- Modelled from the spec (section 4.4, error classification): a failure is
resumable only if it carries the recognized transient marker label or is a
network-level failure with no server reply. -/
def isResumableError (e : CmdError) : Bool :=
  e.labels.contains resumableLabel || e.isNetwork

/-- Modelled from the spec (section 6): a server reply to one command — a
cursor reply (numeric ID, batch, optional post-batch resume token, optional
operation time), a plain success (for killCursors), or a command error. -/
inductive Response where
  | cursor (id : Int) (batch : List ChangeDoc) (pbrt : Option Token) (opTime : Option Nat)
  | ok
  | err (e : CmdError)
  deriving DecidableEq

/-- Modelled from the spec (sections 4.2 and 6): the options embedded in the
notification stage; at most one of the three resume positions is set. -/
structure CsOptions where
  resumeAfter : Option Token
  startAfter : Option Token
  startAtOperationTime : Option Nat
  deriving DecidableEq

/-- Modelled from the spec: a pipeline stage is either the notification
stage (a document whose single key is `$changeStream`) or a caller-supplied
stage, opaque beyond its first key. -/
inductive Stage where
  | changeStream (opts : CsOptions)
  | user (key : String) (body : Nat)
  deriving DecidableEq

def changeStreamKey : String := "$changeStream"

/-- The keys of the document a stage denotes. -/
def stageKeys : Stage → List String
  | .changeStream _ => [changeStreamKey]
  | .user k _ => [k]

/-- Modelled from the spec (section 4.2, Pipeline Builder): the notification
stage is prepended to the caller-supplied stages, which follow verbatim. -/
def buildPipeline (opts : CsOptions) (userPipeline : List Stage) : List Stage :=
  Stage.changeStream opts :: userPipeline

/-- A command issued to the server, as observed by command monitoring. -/
inductive Cmd where
  | aggregate (pipeline : List Stage)
  | getMore (cursorID : Int)
  | killCursors (cursorID : Int)
  deriving DecidableEq

def Cmd.isGetMore : Cmd → Bool
  | .getMore _ => true
  | _ => false

def Cmd.isKill : Cmd → Bool
  | .killCursors _ => true
  | _ => false

/-- Modelled from the spec (section 3, StreamState). -/
inductive StreamState where
  | uninitialized
  | opened
  | awaitingResume
  | closed
  deriving DecidableEq

/-- Modelled from the spec (section 7): the errors surfaced to the caller. -/
inductive StreamError where
  | cmd (e : CmdError)
  | missingResumeToken
  deriving DecidableEq

/-- A three-component server version, compared lexicographically. -/
structure Version where
  major : Nat
  minor : Nat
  patch : Nat
  deriving DecidableEq

def Version.lt (a b : Version) : Bool :=
  Nat.blt a.major b.major ||
    (a.major == b.major && (Nat.blt a.minor b.minor ||
      (a.minor == b.minor && Nat.blt a.patch b.patch)))

def Version.le (a b : Version) : Bool :=
  a == b || Version.lt a b

/-- Modelled from the spec (section 4.4): a server version at least 3.6 and
below 4.0.7 predates post-batch-resume-token support. -/
def predatesPbrt (v : Version) : Bool :=
  Version.le ⟨3, 6, 0⟩ v && Version.lt v ⟨4, 0, 7⟩

/-- Modelled from the spec (section 3): the caller-visible stream state: the
lifecycle state, the current cursor ID and in-memory batch, the batch-level
post-batch resume token, the tracked resume token, the current document, the
surfaced error, and the configuration the stream was opened with. -/
structure ChangeStream where
  state : StreamState
  cursorID : Int
  batch : List ChangeDoc
  pbrt : Option Token
  resumeToken : Option Token
  current : Option ChangeDoc
  err : Option StreamError
  userPipeline : List Stage
  optResumeAfter : Option Token
  optStartAfter : Option Token
  optStartAtOperationTime : Option Nat
  operationTime : Option Nat
  serverVersion : Version
  deriving DecidableEq

/-- The caller-supplied configuration of a `Watch` call. -/
structure WatchConfig where
  userPipeline : List Stage
  optResumeAfter : Option Token
  optStartAfter : Option Token
  optStartAtOperationTime : Option Nat
  serverVersion : Version
  deriving DecidableEq

def WatchConfig.noResumeOptions (cfg : WatchConfig) : Bool :=
  cfg.optResumeAfter.isNone && cfg.optStartAfter.isNone &&
    cfg.optStartAtOperationTime.isNone

/-- The notification-stage options of the initial open command: exactly the
caller-supplied resume options. -/
def initialCsOptions (cfg : WatchConfig) : CsOptions :=
  { resumeAfter := cfg.optResumeAfter
    startAfter := cfg.optStartAfter
    startAtOperationTime := cfg.optStartAtOperationTime }

/-- Modelled from the spec (section 4.1, rule 1): the token adopted before
any document is consumed — a caller-supplied start-after or resume-after
token, or, when no resume or start option at all was supplied, the reply's
post-batch resume token. -/
def initialResumeToken (cfg : WatchConfig) (pbrt : Option Token) : Option Token :=
  match cfg.optStartAfter, cfg.optResumeAfter with
  | some t, _ => some t
  | none, some t => some t
  | none, none =>
    match cfg.optStartAtOperationTime with
    | some _ => none
    | none => pbrt

/-- Modelled from the spec (sections 4.1 and 4.4): the stream produced by a
successful open command; the operation time of the reply is captured exactly
when the server version predates PBRT support and no resume or start option
was set. -/
def streamOfOpen (cfg : WatchConfig) (id : Int) (batch : List ChangeDoc)
    (pbrt : Option Token) (opTime : Option Nat) : ChangeStream :=
  { state := .opened
    cursorID := id
    batch := batch
    pbrt := pbrt
    resumeToken := initialResumeToken cfg pbrt
    current := none
    err := none
    userPipeline := cfg.userPipeline
    optResumeAfter := cfg.optResumeAfter
    optStartAfter := cfg.optStartAfter
    optStartAtOperationTime := cfg.optStartAtOperationTime
    operationTime :=
      if predatesPbrt cfg.serverVersion && cfg.noResumeOptions then opTime else none
    serverVersion := cfg.serverVersion }

/-- The result of an open attempt (initial or resumed). -/
inductive OpenResult where
  | ok (cs : ChangeStream)
  | fail (e : CmdError)
  deriving DecidableEq

/-- The outcome of an open attempt together with the unconsumed script and
the issued commands. -/
structure OpenOutcome where
  result : OpenResult
  rest : List Response
  trace : List Cmd
  deriving DecidableEq

def protocolError : CmdError := { labels := [], code := 0, isNetwork := false }

def networkError : CmdError := { labels := [], code := 0, isNetwork := true }

/-- Modelled from the spec (section 4.4, open): build the pipeline, issue the
aggregate command, and wrap a cursor reply; a failure here is surfaced
directly, never resumed. -/
def watch (cfg : WatchConfig) (rs : List Response) : OpenOutcome :=
  match rs with
  | [] =>
      ⟨.fail networkError, [],
        [Cmd.aggregate (buildPipeline (initialCsOptions cfg) cfg.userPipeline)]⟩
  | r :: rest =>
    match r with
    | .cursor id batch pbrt opTime =>
        ⟨.ok (streamOfOpen cfg id batch pbrt opTime), rest,
          [Cmd.aggregate (buildPipeline (initialCsOptions cfg) cfg.userPipeline)]⟩
    | .ok =>
        ⟨.fail protocolError, rest,
          [Cmd.aggregate (buildPipeline (initialCsOptions cfg) cfg.userPipeline)]⟩
    | .err e =>
        ⟨.fail e, rest,
          [Cmd.aggregate (buildPipeline (initialCsOptions cfg) cfg.userPipeline)]⟩

/-- Modelled from the spec (section 4.4, resume cycle step b): the
notification-stage options of a re-issued open command — resume after the
tracked token when one exists, otherwise whichever option the caller
originally supplied, otherwise the captured operation time. -/
def resumeCsOptions (cs : ChangeStream) : CsOptions :=
  match cs.resumeToken with
  | some t => { resumeAfter := some t, startAfter := none, startAtOperationTime := none }
  | none =>
    if cs.optResumeAfter.isSome || cs.optStartAfter.isSome ||
        cs.optStartAtOperationTime.isSome then
      { resumeAfter := cs.optResumeAfter
        startAfter := cs.optStartAfter
        startAtOperationTime := cs.optStartAtOperationTime }
    else
      { resumeAfter := none, startAfter := none, startAtOperationTime := cs.operationTime }

/-- Modelled from the spec (section 4.1, rules 1, 3 and 4): install a batch
received from a cursor reply.  On an empty batch accompanied by a post-batch
resume token the token adopts it; otherwise the token is left unchanged, so a
non-empty token is never overwritten by an empty one. -/
def installBatch (cs : ChangeStream) (id : Int) (batch : List ChangeDoc)
    (pbrt : Option Token) : ChangeStream :=
  { cs with
    cursorID := id
    batch := batch
    pbrt := pbrt
    resumeToken :=
      match batch, pbrt with
      | [], some p => some p
      | _, _ => cs.resumeToken }

/-- Modelled from the spec (section 4.1, rule 2, and its failure clause):
return the head document of the in-memory batch.  A document lacking the
identity field closes the stream with `missingResumeTokenError`; otherwise
the token becomes the batch-level PBRT when this was the last document of a
batch that has one, and the document's identity field otherwise. -/
def consumeDoc (cs : ChangeStream) (d : ChangeDoc) (rest : List ChangeDoc) :
    Bool × ChangeStream :=
  match d.id? with
  | none =>
      (false, { cs with state := .closed, err := some .missingResumeToken, batch := rest })
  | some t =>
      (true,
        { cs with
          batch := rest
          current := some d
          resumeToken :=
            some (match cs.pbrt with
              | some p => if rest.isEmpty then p else t
              | none => t) })

/-- Modelled from the spec (section 4.4, resume cycle): one best-effort
termination command whose reply is ignored, then one re-issued open command
with the rebuilt pipeline; a failure of the re-issued open is surfaced, never
retried. -/
def resumeCycle (cs : ChangeStream) (rs : List Response) : OpenOutcome :=
  match rs.drop 1 with
  | [] =>
      ⟨.fail networkError, [],
        [Cmd.killCursors cs.cursorID,
         Cmd.aggregate (buildPipeline (resumeCsOptions cs) cs.userPipeline)]⟩
  | r :: rest =>
    match r with
    | .cursor id batch pbrt _ =>
        ⟨.ok (installBatch cs id batch pbrt), rest,
          [Cmd.killCursors cs.cursorID,
           Cmd.aggregate (buildPipeline (resumeCsOptions cs) cs.userPipeline)]⟩
    | .ok =>
        ⟨.fail protocolError, rest,
          [Cmd.killCursors cs.cursorID,
           Cmd.aggregate (buildPipeline (resumeCsOptions cs) cs.userPipeline)]⟩
    | .err e =>
        ⟨.fail e, rest,
          [Cmd.killCursors cs.cursorID,
           Cmd.aggregate (buildPipeline (resumeCsOptions cs) cs.userPipeline)]⟩

/-- The observable outcome of one `Next` or `TryNext` call. -/
structure NextResult where
  ok : Bool
  stream : ChangeStream
  rest : List Response
  trace : List Cmd
  deriving DecidableEq

/-- Modelled from the spec (sections 4.3 and 4.4, advance): one iteration of
the loop shared by `Next` (blocking) and `TryNext` (non-blocking), with `rec`
the continuation for the blocking case.  A document in the in-memory batch is
returned directly; an exhausted cursor (ID zero) yields `false`; otherwise
one fetch command is issued.  A cursor reply installs the batch (adopting the
post-batch resume token on an empty batch); in blocking mode an empty batch
loops for another fetch, in non-blocking mode it returns immediately.  A
resumable fetch error triggers exactly one resume cycle; a non-resumable one,
or a failure of the re-issued open command itself, closes the stream and
surfaces the error. -/
def nextStep (rec : ChangeStream → List Response → NextResult)
    (nonBlocking : Bool) (cs : ChangeStream) (rs : List Response) : NextResult :=
  if cs.state = StreamState.opened then
    match cs.batch with
    | d :: rest =>
        let c := consumeDoc cs d rest
        ⟨c.1, c.2, rs, []⟩
    | [] =>
      if cs.cursorID = 0 then ⟨false, cs, rs, []⟩
      else
        match rs with
        | [] => ⟨false, cs, [], [Cmd.getMore cs.cursorID]⟩
        | r :: rs1 =>
          match r with
          | .cursor id batch pbrt _ =>
            match batch with
            | d :: rest =>
                let c := consumeDoc (installBatch cs id batch pbrt) d rest
                ⟨c.1, c.2, rs1, [Cmd.getMore cs.cursorID]⟩
            | [] =>
              if nonBlocking then
                ⟨false, installBatch cs id batch pbrt, rs1, [Cmd.getMore cs.cursorID]⟩
              else
                let n := rec (installBatch cs id batch pbrt) rs1
                ⟨n.ok, n.stream, n.rest, Cmd.getMore cs.cursorID :: n.trace⟩
          | .ok =>
              ⟨false, { cs with state := .closed, err := some (.cmd protocolError) },
                rs1, [Cmd.getMore cs.cursorID]⟩
          | .err e =>
            if isResumableError e then
              let o := resumeCycle cs rs1
              match o.result with
              | .ok cs1 =>
                match cs1.batch with
                | d :: rest =>
                    let c := consumeDoc cs1 d rest
                    ⟨c.1, c.2, o.rest, Cmd.getMore cs.cursorID :: o.trace⟩
                | [] =>
                  if nonBlocking then
                    ⟨false, cs1, o.rest, Cmd.getMore cs.cursorID :: o.trace⟩
                  else
                    let n := rec cs1 o.rest
                    ⟨n.ok, n.stream, n.rest,
                      Cmd.getMore cs.cursorID :: (o.trace ++ n.trace)⟩
              | .fail e2 =>
                  ⟨false, { cs with state := .closed, err := some (.cmd e2) },
                    o.rest, Cmd.getMore cs.cursorID :: o.trace⟩
            else
              ⟨false, { cs with state := .closed, err := some (.cmd e) },
                rs1, [Cmd.getMore cs.cursorID]⟩
  else ⟨false, cs, rs, []⟩

/-- The iteration loop: `nextStep` applied until the fuel runs out.  The fuel
is set to one more than the script length by the entry points below; every
continuation of `nextStep` consumes at least one response first, so the fuel
never runs out on the paths the entry points reach. -/
def nextLoop : Nat → Bool → ChangeStream → List Response → NextResult
  | 0, _, cs, rs => ⟨false, cs, rs, []⟩
  | fuel + 1, nonBlocking, cs, rs =>
      nextStep (nextLoop fuel nonBlocking) nonBlocking cs rs

/-- Modelled from the spec (section 4.3, next): blocking iteration. -/
def ChangeStream.next (cs : ChangeStream) (rs : List Response) : NextResult :=
  nextLoop (rs.length + 1) false cs rs

/-- Modelled from the spec (section 4.3, tryNext): non-blocking iteration. -/
def ChangeStream.tryNext (cs : ChangeStream) (rs : List Response) : NextResult :=
  nextLoop (rs.length + 1) true cs rs

/-- Iterate `Next` a given number of times, threading stream and script. -/
def nextN : Nat → ChangeStream → List Response → ChangeStream × List Response
  | 0, cs, rs => (cs, rs)
  | k + 1, cs, rs =>
    let r := ChangeStream.next cs rs
    nextN k r.stream r.rest

/-- The observable outcome of a `Close` call. -/
structure CloseResult where
  stream : ChangeStream
  rest : List Response
  trace : List Cmd
  deriving DecidableEq

/-- Modelled from the spec (sections 4.3 and 4.4, close): idempotent; a
best-effort termination command is sent, its reply consumed and ignored, and
the stream transitions to Closed with no error ever surfaced. -/
def ChangeStream.close (cs : ChangeStream) (rs : List Response) : CloseResult :=
  match cs.state with
  | .closed => ⟨cs, rs, []⟩
  | _ => ⟨{ cs with state := .closed }, rs.drop 1, [Cmd.killCursors cs.cursorID]⟩

/-! ## Sample values used by the concrete witnesses -/

def sampleVersion : Version := ⟨4, 2, 0⟩

/-- An open stream with an empty in-memory batch, cursor ID 1, and a
previously tracked token, as left behind by an earlier successful open. -/
def sampleStream : ChangeStream :=
  { state := .opened
    cursorID := 1
    batch := []
    pbrt := none
    resumeToken := some 5
    current := none
    err := none
    userPipeline := []
    optResumeAfter := none
    optStartAfter := none
    optStartAtOperationTime := none
    operationTime := none
    serverVersion := sampleVersion }

/-- The error the mock-based tests use: code 6 (host unreachable) carrying
the `ResumableChangeStreamError` label. -/
def sampleResumableError : CmdError :=
  { labels := [resumableLabel], code := 6, isNetwork := false }

/-- The error the killCursors mock reply carries: code 11601 (interrupted),
with no resumable label. -/
def sampleKillError : CmdError :=
  { labels := [], code := 11601, isNetwork := false }

def sampleDoc : ChangeDoc := ⟨some 7, 0⟩

def sampleDocs : List ChangeDoc := [⟨some 1, 0⟩, ⟨some 2, 0⟩, ⟨some 3, 0⟩]

def sampleBatchStream : ChangeStream :=
  { sampleStream with batch := sampleDocs }

def sampleBatchPbrtStream : ChangeStream :=
  { sampleStream with batch := sampleDocs, pbrt := some 99 }

def sampleBadDocStream : ChangeStream :=
  { sampleStream with batch := [⟨none, 0⟩] }

/-- A watch configuration with no resume options against a 4.0.2 server
(which predates PBRT support). -/
def sampleConfig : WatchConfig :=
  { userPipeline := []
    optResumeAfter := none
    optStartAfter := none
    optStartAtOperationTime := none
    serverVersion := ⟨4, 0, 2⟩ }
theorem toNat_ofNat_valid (n : Nat) (h : n < 55296) : (Char.ofNat n).toNat = n := by
  unfold Char.ofNat
  rw [dif_pos (Or.inl h)]
  simp [Char.ofNatAux, Char.toNat, UInt32.toNat]

theorem goToLowerChar_idem (c : Char) : goToLowerChar (goToLowerChar c) = goToLowerChar c := by
  unfold goToLowerChar
  by_cases h : 65 ≤ c.toNat ∧ c.toNat ≤ 90
  · have hb : (65 ≤ c.toNat && c.toNat ≤ 90) = true := by
      simp [h.1, h.2]
    rw [if_pos hb]
    have ht : (Char.ofNat (c.toNat + 32)).toNat = c.toNat + 32 :=
      toNat_ofNat_valid _ (by omega)
    rw [if_neg]
    rw [ht]
    simp
    omega
  · have hb : (65 ≤ c.toNat && c.toNat ≤ 90) = false := by
      simp only [Bool.and_eq_false_iff]
      rcases Nat.lt_or_ge c.toNat 65 with h1 | h1
      · exact Or.inl (by simp; omega)
      · rcases Nat.lt_or_ge 90 c.toNat with h2 | h2
        · exact Or.inr (by simp; omega)
        · exact absurd ⟨h1, h2⟩ h
    rw [if_neg (by simp [hb]), if_neg (by simp [hb])]

theorem goToLower_idem (s : String) : goToLower (goToLower s) = goToLower s := by
  unfold goToLower
  simp only [List.map_map]
  congr 1
  induction s.data with
  | nil => rfl
  | cons c cs ih => simp [ih, goToLowerChar_idem c]

theorem monitoringEventTypeFromString_default (lower : String → String)
    (hascii : ∀ s : String, (∀ c ∈ s.data, c.toNat < 128) → lower s = goToLower s)
    (s : String) (h : lower s ∉ declaredMonitoringEventTypes.map lower) :
    monitoringEventTypeFromString lower s = ("", false) := by
  unfold monitoringEventTypeFromString
  rw [if_neg (show ¬ lower s = "commandstartedevent" from fun he =>
    h (List.mem_map.mpr ⟨commandStartedEvent, by decide,
      (hascii commandStartedEvent (by decide)).trans
        (((by decide : goToLower commandStartedEvent = "commandstartedevent")).trans he.symm)⟩))]
  rw [if_neg (show ¬ lower s = "commandsucceededevent" from fun he =>
    h (List.mem_map.mpr ⟨commandSucceededEvent, by decide,
      (hascii commandSucceededEvent (by decide)).trans
        (((by decide : goToLower commandSucceededEvent = "commandsucceededevent")).trans he.symm)⟩))]
  rw [if_neg (show ¬ lower s = "commandfailedevent" from fun he =>
    h (List.mem_map.mpr ⟨commandFailedEvent, by decide,
      (hascii commandFailedEvent (by decide)).trans
        (((by decide : goToLower commandFailedEvent = "commandfailedevent")).trans he.symm)⟩))]
  rw [if_neg (show ¬ lower s = "poolcreatedevent" from fun he =>
    h (List.mem_map.mpr ⟨poolCreatedEvent, by decide,
      (hascii poolCreatedEvent (by decide)).trans
        (((by decide : goToLower poolCreatedEvent = "poolcreatedevent")).trans he.symm)⟩))]
  rw [if_neg (show ¬ lower s = "poolreadyevent" from fun he =>
    h (List.mem_map.mpr ⟨poolReadyEvent, by decide,
      (hascii poolReadyEvent (by decide)).trans
        (((by decide : goToLower poolReadyEvent = "poolreadyevent")).trans he.symm)⟩))]
  rw [if_neg (show ¬ lower s = "poolclearedevent" from fun he =>
    h (List.mem_map.mpr ⟨poolClearedEvent, by decide,
      (hascii poolClearedEvent (by decide)).trans
        (((by decide : goToLower poolClearedEvent = "poolclearedevent")).trans he.symm)⟩))]
  rw [if_neg (show ¬ lower s = "poolclosedevent" from fun he =>
    h (List.mem_map.mpr ⟨poolClosedEvent, by decide,
      (hascii poolClosedEvent (by decide)).trans
        (((by decide : goToLower poolClosedEvent = "poolclosedevent")).trans he.symm)⟩))]
  rw [if_neg (show ¬ lower s = "connectioncreatedevent" from fun he =>
    h (List.mem_map.mpr ⟨connectionCreatedEvent, by decide,
      (hascii connectionCreatedEvent (by decide)).trans
        (((by decide : goToLower connectionCreatedEvent = "connectioncreatedevent")).trans he.symm)⟩))]
  rw [if_neg (show ¬ lower s = "connectionreadyevent" from fun he =>
    h (List.mem_map.mpr ⟨connectionReadyEvent, by decide,
      (hascii connectionReadyEvent (by decide)).trans
        (((by decide : goToLower connectionReadyEvent = "connectionreadyevent")).trans he.symm)⟩))]
  rw [if_neg (show ¬ lower s = "connectionclosedevent" from fun he =>
    h (List.mem_map.mpr ⟨connectionClosedEvent, by decide,
      (hascii connectionClosedEvent (by decide)).trans
        (((by decide : goToLower connectionClosedEvent = "connectionclosedevent")).trans he.symm)⟩))]
  rw [if_neg (show ¬ lower s = "connectioncheckoutstartedevent" from fun he =>
    h (List.mem_map.mpr ⟨connectionCheckOutStartedEvent, by decide,
      (hascii connectionCheckOutStartedEvent (by decide)).trans
        (((by decide : goToLower connectionCheckOutStartedEvent = "connectioncheckoutstartedevent")).trans he.symm)⟩))]
  rw [if_neg (show ¬ lower s = "connectioncheckoutfailedevent" from fun he =>
    h (List.mem_map.mpr ⟨connectionCheckOutFailedEvent, by decide,
      (hascii connectionCheckOutFailedEvent (by decide)).trans
        (((by decide : goToLower connectionCheckOutFailedEvent = "connectioncheckoutfailedevent")).trans he.symm)⟩))]
  rw [if_neg (show ¬ lower s = "connectioncheckedoutevent" from fun he =>
    h (List.mem_map.mpr ⟨connectionCheckedOutEvent, by decide,
      (hascii connectionCheckedOutEvent (by decide)).trans
        (((by decide : goToLower connectionCheckedOutEvent = "connectioncheckedoutevent")).trans he.symm)⟩))]
  rw [if_neg (show ¬ lower s = "connectioncheckedinevent" from fun he =>
    h (List.mem_map.mpr ⟨connectionCheckedInEvent, by decide,
      (hascii connectionCheckedInEvent (by decide)).trans
        (((by decide : goToLower connectionCheckedInEvent = "connectioncheckedinevent")).trans he.symm)⟩))]
  rw [if_neg (show ¬ lower s = "serverdescriptionchangedevent" from fun he =>
    h (List.mem_map.mpr ⟨serverDescriptionChangedEvent, by decide,
      (hascii serverDescriptionChangedEvent (by decide)).trans
        (((by decide : goToLower serverDescriptionChangedEvent = "serverdescriptionchangedevent")).trans he.symm)⟩))]
  rw [if_neg (show ¬ lower s = "serverheartbeatfailedevent" from fun he =>
    h (List.mem_map.mpr ⟨serverHeartbeatFailedEvent, by decide,
      (hascii serverHeartbeatFailedEvent (by decide)).trans
        (((by decide : goToLower serverHeartbeatFailedEvent = "serverheartbeatfailedevent")).trans he.symm)⟩))]
  rw [if_neg (show ¬ lower s = "serverheartbeatstartedevent" from fun he =>
    h (List.mem_map.mpr ⟨serverHeartbeatStartedEvent, by decide,
      (hascii serverHeartbeatStartedEvent (by decide)).trans
        (((by decide : goToLower serverHeartbeatStartedEvent = "serverheartbeatstartedevent")).trans he.symm)⟩))]
  rw [if_neg (show ¬ lower s = "serverheartbeatsucceededevent" from fun he =>
    h (List.mem_map.mpr ⟨serverHeartbeatSucceededEvent, by decide,
      (hascii serverHeartbeatSucceededEvent (by decide)).trans
        (((by decide : goToLower serverHeartbeatSucceededEvent = "serverheartbeatsucceededevent")).trans he.symm)⟩))]
  rw [if_neg (show ¬ lower s = "topologydescriptionchangedevent" from fun he =>
    h (List.mem_map.mpr ⟨topologyDescriptionChangedEvent, by decide,
      (hascii topologyDescriptionChangedEvent (by decide)).trans
        (((by decide : goToLower topologyDescriptionChangedEvent = "topologydescriptionchangedevent")).trans he.symm)⟩))]

theorem monitoringEventTypeFromString_ascii (lower : String → String)
    (hascii : ∀ s : String, (∀ c ∈ s.data, c.toNat < 128) → lower s = goToLower s)
    (s : String) (hs : ∀ c ∈ s.data, c.toNat < 128) :
    monitoringEventTypeFromString lower s = monitoringEventTypeFromString goToLower s := by
  unfold monitoringEventTypeFromString
  rw [hascii s hs]

theorem resumeCycle_trace (cs : ChangeStream) (rs : List Response) :
    (resumeCycle cs rs).trace =
      [Cmd.killCursors cs.cursorID,
       Cmd.aggregate (buildPipeline (resumeCsOptions cs) cs.userPipeline)] := by
  unfold resumeCycle
  rcases rs.drop 1 with _ | ⟨r, rest⟩
  · rfl
  · cases r <;> rfl

/-! ## Claim theorems -/

/-- Claim C1: for every stream in the Open state whose in-memory batch is
exhausted, a fetch failing with a resumable error triggers exactly one resume
cycle — the issued commands are exactly one fetch, one best-effort
termination and one re-issued open — after which the cursor is usable: `Next`
returns true, and the cursor ID and resume token reflect the new cursor.  If
the re-issued open itself fails, even with a resumable error, no further
resume is attempted (the trace still holds exactly those three commands) and
the error is surfaced with the stream Closed. -/
theorem c1_resume_exactly_once (cs : ChangeStream) (rs : List Response)
    (e e2 : CmdError) (kr : Response) (newID : Int) (d : ChangeDoc) (t : Token)
    (hst : cs.state = StreamState.opened) (herr : cs.err = none)
    (hb : cs.batch = []) (hid : cs.cursorID ≠ 0)
    (hres : isResumableError e = true) (hd : d.id? = some t) :
    ((ChangeStream.next cs
        (Response.err e :: kr :: Response.cursor newID [d] none none :: rs)).ok = true ∧
      (ChangeStream.next cs
        (Response.err e :: kr :: Response.cursor newID [d] none none :: rs)).stream.cursorID
          = newID ∧
      (ChangeStream.next cs
        (Response.err e :: kr :: Response.cursor newID [d] none none :: rs)).stream.resumeToken
          = some t ∧
      (ChangeStream.next cs
        (Response.err e :: kr :: Response.cursor newID [d] none none :: rs)).stream.err
          = none ∧
      (ChangeStream.next cs
        (Response.err e :: kr :: Response.cursor newID [d] none none :: rs)).stream.state
          = StreamState.opened ∧
      (ChangeStream.next cs
        (Response.err e :: kr :: Response.cursor newID [d] none none :: rs)).trace
          = [Cmd.getMore cs.cursorID, Cmd.killCursors cs.cursorID,
             Cmd.aggregate (buildPipeline (resumeCsOptions cs) cs.userPipeline)]) ∧
    ((ChangeStream.next cs (Response.err e :: kr :: Response.err e2 :: rs)).ok = false ∧
      (ChangeStream.next cs (Response.err e :: kr :: Response.err e2 :: rs)).stream.state
        = StreamState.closed ∧
      (ChangeStream.next cs (Response.err e :: kr :: Response.err e2 :: rs)).stream.err
        = some (StreamError.cmd e2) ∧
      (ChangeStream.next cs (Response.err e :: kr :: Response.err e2 :: rs)).trace
        = [Cmd.getMore cs.cursorID, Cmd.killCursors cs.cursorID,
           Cmd.aggregate (buildPipeline (resumeCsOptions cs) cs.userPipeline)]) := by
  constructor
  · unfold ChangeStream.next nextLoop nextStep resumeCycle
    simp [hst, hb, hid, hres, consumeDoc, hd, installBatch, herr]
  · unfold ChangeStream.next nextLoop nextStep resumeCycle
    simp [hst, hb, hid, hres, herr]

theorem c1_witness :
    sampleStream.state = StreamState.opened ∧ sampleStream.err = none ∧
    sampleStream.batch = [] ∧ sampleStream.cursorID ≠ 0 ∧
    isResumableError sampleResumableError = true ∧ sampleDoc.id? = some 7 ∧
    (ChangeStream.next sampleStream
      (Response.err sampleResumableError :: Response.ok ::
        Response.cursor 2 [sampleDoc] none none :: [])).ok = true ∧
    (ChangeStream.next sampleStream
      (Response.err sampleResumableError :: Response.ok ::
        Response.err sampleResumableError :: [])).ok = false := by
  refine ⟨rfl, rfl, rfl, by decide, by decide, rfl, ?_, ?_⟩
  · exact (c1_resume_exactly_once sampleStream [] sampleResumableError sampleResumableError
      Response.ok 2 sampleDoc 7 rfl rfl rfl (by decide) (by decide) rfl).1.1
  · exact (c1_resume_exactly_once sampleStream [] sampleResumableError sampleResumableError
      Response.ok 2 sampleDoc 7 rfl rfl rfl (by decide) (by decide) rfl).2.1

/-- Claim C2: for every user-supplied pipeline (including the empty one), the
open command issued by `watch` carries a pipeline whose first stage is the
notification stage — a document whose single key is `$changeStream` —
followed by the user-supplied stages verbatim. -/
theorem c2_first_stage_is_changeStream (cfg : WatchConfig) (rs : List Response) :
    (watch cfg rs).trace =
      [Cmd.aggregate (buildPipeline (initialCsOptions cfg) cfg.userPipeline)] ∧
    (buildPipeline (initialCsOptions cfg) cfg.userPipeline).head? =
      some (Stage.changeStream (initialCsOptions cfg)) ∧
    stageKeys (Stage.changeStream (initialCsOptions cfg)) = [changeStreamKey] ∧
    (buildPipeline (initialCsOptions cfg) cfg.userPipeline).tail = cfg.userPipeline := by
  refine ⟨?_, rfl, rfl, rfl⟩
  unfold watch
  rcases rs with _ | ⟨r, rest⟩
  · rfl
  · cases r <;> rfl

/-- Claim C3: after consuming any number N of documents (1 or more) of one
batch via `Next` with no intervening errors, the tracked resume token equals
the identity field of the Nth document whenever the batch carries no
post-batch resume token; when the batch does carry one, the token equals the
current document's identity field while the batch is not yet exhausted and
equals the batch PBRT once it is. -/
theorem c3_resume_token_after_consuming (docs : List ChangeDoc) :
    ∀ (cs : ChangeStream) (rs : List Response),
      cs.state = StreamState.opened → cs.batch = docs →
      (∀ d ∈ docs, d.id?.isSome) →
      ((cs.pbrt = none → ∀ k, ∀ hk : k < docs.length,
          ((nextN (k + 1) cs rs).1).resumeToken = docs[k].id?) ∧
       (∀ p, cs.pbrt = some p → ∀ k, ∀ hk : k < docs.length,
          ((nextN (k + 1) cs rs).1).resumeToken =
            if k + 1 = docs.length then some p else docs[k].id?)) := by
  induction docs with
  | nil =>
    intro cs rs hst hb hids
    refine ⟨fun _ k hk => absurd hk (by simp), fun p hp k hk => absurd hk (by simp)⟩
  | cons d ds ih =>
    intro cs rs hst hb hids
    obtain ⟨t, ht⟩ := Option.isSome_iff_exists.mp (hids d (by simp))
    have hstep : ChangeStream.next cs rs =
        ⟨true,
          { cs with
            batch := ds
            current := some d
            resumeToken :=
              some (match cs.pbrt with
                | some p => if ds.isEmpty then p else t
                | none => t) }, rs, []⟩ := by
      unfold ChangeStream.next nextLoop nextStep
      simp [hst, hb, consumeDoc, ht]
    constructor
    · intro hpb k hk
      cases k with
      | zero =>
        have hunf : nextN 1 cs rs =
            nextN 0 (ChangeStream.next cs rs).stream (ChangeStream.next cs rs).rest :=
          rfl
        rw [hunf, hstep]
        simp [nextN, hpb, ht]
      | succ j =>
        have hj : j < ds.length := by
          have := hk
          simp at this
          omega
        have hunf : nextN (j + 1 + 1) cs rs =
            nextN (j + 1) (ChangeStream.next cs rs).stream (ChangeStream.next cs rs).rest :=
          rfl
        rw [hunf, hstep]
        have hih := (ih
          { cs with
            batch := ds
            current := some d
            resumeToken :=
              some (match cs.pbrt with
                | some p => if ds.isEmpty then p else t
                | none => t) }
          rs hst rfl (fun x hx => hids x (by simp [hx]))).1 hpb j hj
        rw [hih]
        simp
    · intro p hp k hk
      cases k with
      | zero =>
        have hunf : nextN 1 cs rs =
            nextN 0 (ChangeStream.next cs rs).stream (ChangeStream.next cs rs).rest :=
          rfl
        rw [hunf, hstep]
        rcases ds with _ | ⟨d2, ds2⟩
        · simp [nextN, hp]
        · simp [nextN, hp, ht]
      | succ j =>
        have hj : j < ds.length := by
          have := hk
          simp at this
          omega
        have hunf : nextN (j + 1 + 1) cs rs =
            nextN (j + 1) (ChangeStream.next cs rs).stream (ChangeStream.next cs rs).rest :=
          rfl
        rw [hunf, hstep]
        have hih := (ih
          { cs with
            batch := ds
            current := some d
            resumeToken :=
              some (match cs.pbrt with
                | some p => if ds.isEmpty then p else t
                | none => t) }
          rs hst rfl (fun x hx => hids x (by simp [hx]))).2 p hp j hj
        rw [hih]
        by_cases hc : j + 1 = ds.length
        · simp [hc]
        · have hc2 : ¬(j + 1 + 1 = (d :: ds).length) := by simp; omega
          simp [hc, hc2]

theorem c3_witness :
    sampleBatchStream.state = StreamState.opened ∧
    sampleBatchStream.batch = sampleDocs ∧
    (∀ d ∈ sampleDocs, d.id?.isSome) ∧
    sampleBatchStream.pbrt = none ∧ sampleBatchPbrtStream.pbrt = some 99 ∧
    ((nextN 1 sampleBatchStream []).1).resumeToken = some 1 ∧
    ((nextN 2 sampleBatchStream []).1).resumeToken = some 2 ∧
    ((nextN 3 sampleBatchStream []).1).resumeToken = some 3 ∧
    ((nextN 2 sampleBatchPbrtStream []).1).resumeToken = some 2 ∧
    ((nextN 3 sampleBatchPbrtStream []).1).resumeToken = some 99 := by
  refine ⟨rfl, rfl, by decide, rfl, rfl, ?_, ?_, ?_, ?_, ?_⟩
  · exact ((c3_resume_token_after_consuming sampleDocs sampleBatchStream [] rfl rfl
      (by decide)).1 rfl 0 (by decide)).trans (by decide)
  · exact ((c3_resume_token_after_consuming sampleDocs sampleBatchStream [] rfl rfl
      (by decide)).1 rfl 1 (by decide)).trans (by decide)
  · exact ((c3_resume_token_after_consuming sampleDocs sampleBatchStream [] rfl rfl
      (by decide)).1 rfl 2 (by decide)).trans (by decide)
  · exact ((c3_resume_token_after_consuming sampleDocs sampleBatchPbrtStream [] rfl rfl
      (by decide)).2 99 rfl 1 (by decide)).trans (by decide)
  · exact ((c3_resume_token_after_consuming sampleDocs sampleBatchPbrtStream [] rfl rfl
      (by decide)).2 99 rfl 2 (by decide)).trans (by decide)

/-- Claim C4: a fetch that returns an empty batch accompanied by a
server-supplied post-batch resume token updates the tracked resume token to
that PBRT, even though no document was returned: `TryNext` returns false with
no error, and exactly one fetch command was issued. -/
theorem c4_empty_batch_pbrt_adopted (cs : ChangeStream) (rs : List Response)
    (id2 : Int) (p : Token) (ot : Option Nat)
    (hst : cs.state = StreamState.opened) (herr : cs.err = none)
    (hb : cs.batch = []) (hid : cs.cursorID ≠ 0) :
    (ChangeStream.tryNext cs (Response.cursor id2 [] (some p) ot :: rs)).ok = false ∧
    (ChangeStream.tryNext cs (Response.cursor id2 [] (some p) ot :: rs)).stream.err = none ∧
    (ChangeStream.tryNext cs (Response.cursor id2 [] (some p) ot :: rs)).stream.resumeToken
      = some p ∧
    (ChangeStream.tryNext cs (Response.cursor id2 [] (some p) ot :: rs)).trace
      = [Cmd.getMore cs.cursorID] := by
  unfold ChangeStream.tryNext nextLoop nextStep
  simp [hst, hb, hid, installBatch, herr]

theorem c4_witness :
    sampleStream.state = StreamState.opened ∧ sampleStream.err = none ∧
    sampleStream.batch = [] ∧ sampleStream.cursorID ≠ 0 ∧
    (ChangeStream.tryNext sampleStream
      (Response.cursor 1 [] (some 42) none :: [])).ok = false ∧
    (ChangeStream.tryNext sampleStream
      (Response.cursor 1 [] (some 42) none :: [])).stream.resumeToken = some 42 := by
  refine ⟨rfl, rfl, rfl, by decide, ?_, ?_⟩
  · exact (c4_empty_batch_pbrt_adopted sampleStream [] 1 42 none rfl rfl rfl (by decide)).1
  · exact (c4_empty_batch_pbrt_adopted sampleStream [] 1 42 none rfl rfl rfl (by decide)).2.2.1

/-- Claim C5: a server-delivered document lacking the expected identity
(`_id`) field fails iteration with the missing-resume-token error: `Next`
returns false, the error is surfaced, the stream transitions to Closed, and
no command at all (in particular no resume attempt) is issued. -/
theorem c5_missing_resume_token (cs : ChangeStream) (rs : List Response)
    (d : ChangeDoc) (rest : List ChangeDoc)
    (hst : cs.state = StreamState.opened) (hb : cs.batch = d :: rest)
    (hd : d.id? = none) :
    (ChangeStream.next cs rs).ok = false ∧
    (ChangeStream.next cs rs).stream.state = StreamState.closed ∧
    (ChangeStream.next cs rs).stream.err = some StreamError.missingResumeToken ∧
    (ChangeStream.next cs rs).trace = [] := by
  unfold ChangeStream.next nextLoop nextStep
  simp [hst, hb, consumeDoc, hd]

theorem c5_witness :
    sampleBadDocStream.state = StreamState.opened ∧
    sampleBadDocStream.batch = ⟨none, 0⟩ :: [] ∧
    (⟨none, 0⟩ : ChangeDoc).id? = none ∧
    (ChangeStream.next sampleBadDocStream []).ok = false ∧
    (ChangeStream.next sampleBadDocStream []).stream.err
      = some StreamError.missingResumeToken ∧
    (ChangeStream.next sampleBadDocStream []).trace = [] := by
  refine ⟨rfl, rfl, rfl, ?_, ?_, ?_⟩
  · exact (c5_missing_resume_token sampleBadDocStream [] ⟨none, 0⟩ [] rfl rfl rfl).1
  · exact (c5_missing_resume_token sampleBadDocStream [] ⟨none, 0⟩ [] rfl rfl rfl).2.2.1
  · exact (c5_missing_resume_token sampleBadDocStream [] ⟨none, 0⟩ [] rfl rfl rfl).2.2.2

/-- Claim C6: a cursor opened with a non-zero ID and an empty first batch is
not implicitly closed: the open succeeds, the stream is Open with a positive
cursor ID, no termination command is issued, and a later fetch that yields a
document succeeds. -/
theorem c6_empty_first_batch_not_closed (cfg : WatchConfig) (rs rs2 : List Response)
    (id : Int) (pbrt : Option Token) (ot : Option Nat) (d : ChangeDoc) (t : Token)
    (hid : 0 < id) (hd : d.id? = some t) :
    (watch cfg (Response.cursor id [] pbrt ot :: rs)).result =
      OpenResult.ok (streamOfOpen cfg id [] pbrt ot) ∧
    (streamOfOpen cfg id [] pbrt ot).state = StreamState.opened ∧
    (streamOfOpen cfg id [] pbrt ot).cursorID = id ∧
    0 < (streamOfOpen cfg id [] pbrt ot).cursorID ∧
    ((watch cfg (Response.cursor id [] pbrt ot :: rs)).trace.filter Cmd.isKill) = [] ∧
    (ChangeStream.next (streamOfOpen cfg id [] pbrt ot)
        (Response.cursor id [d] none none :: rs2)).ok = true := by
  refine ⟨rfl, rfl, rfl, hid, by simp [watch, Cmd.isKill], ?_⟩
  have hnz : id ≠ 0 := by omega
  unfold ChangeStream.next nextLoop nextStep
  simp [streamOfOpen, hnz, consumeDoc, hd, installBatch]

theorem c6_witness :
    (0 : Int) < 1 ∧ sampleDoc.id? = some 7 ∧
    (watch sampleConfig (Response.cursor 1 [] none none :: [])).result =
      OpenResult.ok (streamOfOpen sampleConfig 1 [] none none) ∧
    (streamOfOpen sampleConfig 1 [] none none).state = StreamState.opened ∧
    0 < (streamOfOpen sampleConfig 1 [] none none).cursorID ∧
    (ChangeStream.next (streamOfOpen sampleConfig 1 [] none none)
        (Response.cursor 1 [sampleDoc] none none :: [])).ok = true := by
  refine ⟨by decide, rfl, ?_, ?_, ?_, ?_⟩
  · exact (c6_empty_first_batch_not_closed sampleConfig [] [] 1 none none sampleDoc 7
      (by decide) rfl).1
  · exact (c6_empty_first_batch_not_closed sampleConfig [] [] 1 none none sampleDoc 7
      (by decide) rfl).2.1
  · exact (c6_empty_first_batch_not_closed sampleConfig [] [] 1 none none sampleDoc 7
      (by decide) rfl).2.2.2.1
  · exact (c6_empty_first_batch_not_closed sampleConfig [] [] 1 none none sampleDoc 7
      (by decide) rfl).2.2.2.2.2

/-- Claim C7: a single `TryNext` call issues at most one fetch command and
returns immediately with that attempt's result: when the in-memory batch is
non-empty it issues no command at all (and yields the head document), and
when the batch is empty it issues exactly one fetch and returns true when
that fetch yielded a document and false when it returned an empty batch. -/
theorem c7_trynext_at_most_one_fetch (cs : ChangeStream) (rs : List Response)
    (hst : cs.state = StreamState.opened) :
    (((ChangeStream.tryNext cs rs).trace.filter Cmd.isGetMore).length ≤ 1) ∧
    (cs.batch ≠ [] → (ChangeStream.tryNext cs rs).trace = []) ∧
    (∀ d rest t, cs.batch = d :: rest → d.id? = some t →
      (ChangeStream.tryNext cs rs).ok = true ∧
      (ChangeStream.tryNext cs rs).stream.current = some d ∧
      (ChangeStream.tryNext cs rs).trace = []) ∧
    (∀ id d ds pbrt ot rs2 t, cs.batch = [] → cs.cursorID ≠ 0 → d.id? = some t →
      rs = Response.cursor id (d :: ds) pbrt ot :: rs2 →
      (ChangeStream.tryNext cs rs).ok = true ∧
      (ChangeStream.tryNext cs rs).stream.current = some d ∧
      (ChangeStream.tryNext cs rs).trace = [Cmd.getMore cs.cursorID]) ∧
    (∀ id pbrt ot rs2, cs.batch = [] → cs.cursorID ≠ 0 →
      rs = Response.cursor id [] pbrt ot :: rs2 →
      (ChangeStream.tryNext cs rs).ok = false ∧
      (ChangeStream.tryNext cs rs).stream.err = cs.err ∧
      (ChangeStream.tryNext cs rs).trace = [Cmd.getMore cs.cursorID]) := by
  refine ⟨?_, ?_, ?_, ?_, ?_⟩
  · unfold ChangeStream.tryNext nextLoop nextStep
    rcases hb : cs.batch with _ | ⟨d, rest⟩
    · simp only [hst, if_pos rfl, hb]
      by_cases hid : cs.cursorID = 0
      · simp [hid]
      · rcases rs with _ | ⟨r, rs1⟩
        · simp [hid, Cmd.isGetMore]
        · rcases r with ⟨id, batch, pbrt, ot⟩ | _ | e
          · rcases batch with _ | ⟨d, rest⟩
            · simp [hid, Cmd.isGetMore]
            · simp [hid, Cmd.isGetMore]
          · simp [hid, Cmd.isGetMore]
          · by_cases hre : isResumableError e
            · simp only [hid, if_neg hid, hre, if_pos hre]
              rcases ho : (resumeCycle cs rs1).result with cs1 | e2
              · have htr := resumeCycle_trace cs rs1
                rcases hb1 : cs1.batch with _ | ⟨d1, rest1⟩
                · simp [ho, hb1, htr, Cmd.isGetMore]
                · simp [ho, hb1, htr, Cmd.isGetMore]
              · have htr := resumeCycle_trace cs rs1
                simp [ho, htr, Cmd.isGetMore]
            · simp [hid, hre, Cmd.isGetMore]
    · simp [hst, hb]
  · intro hne
    rcases hb : cs.batch with _ | ⟨d, rest⟩
    · exact absurd hb hne
    · unfold ChangeStream.tryNext nextLoop nextStep
      simp [hst, hb]
  · intro d rest t hb hd
    unfold ChangeStream.tryNext nextLoop nextStep
    simp [hst, hb, consumeDoc, hd]
  · intro id d ds pbrt ot rs2 t hb hid hd hrs
    subst hrs
    unfold ChangeStream.tryNext nextLoop nextStep
    simp [hst, hb, hid, consumeDoc, hd, installBatch]
  · intro id pbrt ot rs2 hb hid hrs
    subst hrs
    unfold ChangeStream.tryNext nextLoop nextStep
    simp [hst, hb, hid, installBatch]

theorem c7_witness :
    sampleStream.state = StreamState.opened ∧
    (((ChangeStream.tryNext sampleStream []).trace.filter Cmd.isGetMore).length ≤ 1) ∧
    (sampleBatchStream.batch ≠ [] →
      (ChangeStream.tryNext sampleBatchStream []).trace = []) ∧
    (ChangeStream.tryNext sampleStream
      (Response.cursor 2 (sampleDoc :: []) none none :: [])).ok = true ∧
    (ChangeStream.tryNext sampleStream
      (Response.cursor 2 [] none none :: [])).ok = false := by
  refine ⟨rfl, (c7_trynext_at_most_one_fetch sampleStream [] rfl).1,
    (c7_trynext_at_most_one_fetch sampleBatchStream [] rfl).2.1, ?_, ?_⟩
  · exact ((c7_trynext_at_most_one_fetch sampleStream
      (Response.cursor 2 (sampleDoc :: []) none none :: []) rfl).2.2.2.1
      2 sampleDoc [] none none [] 7 rfl (by decide) rfl rfl).1
  · exact ((c7_trynext_at_most_one_fetch sampleStream
      (Response.cursor 2 [] none none :: []) rfl).2.2.2.2
      2 none none [] rfl (by decide) rfl).1

/-- Claim C8: for a stream opened against a server version at least 3.6 and
below 4.0.7 with no resume or start option set by the caller, the operation
time of the open reply is captured, and the re-issued open command of a
resume cycle carries it as `startAtOperationTime` inside its notification
stage. -/
theorem c8_resume_carries_operation_time (cfg : WatchConfig) (rs rs2 : List Response)
    (id newID : Int) (ot : Nat) (e : CmdError) (kr : Response) (d : ChangeDoc) (t : Token)
    (hv : predatesPbrt cfg.serverVersion = true)
    (hra : cfg.optResumeAfter = none) (hsa : cfg.optStartAfter = none)
    (hot : cfg.optStartAtOperationTime = none)
    (hid : id ≠ 0) (hres : isResumableError e = true) (hd : d.id? = some t) :
    (watch cfg (Response.cursor id [] none (some ot) :: rs)).result =
      OpenResult.ok (streamOfOpen cfg id [] none (some ot)) ∧
    (streamOfOpen cfg id [] none (some ot)).operationTime = some ot ∧
    (streamOfOpen cfg id [] none (some ot)).resumeToken = none ∧
    (ChangeStream.next (streamOfOpen cfg id [] none (some ot))
        (Response.err e :: kr :: Response.cursor newID [d] none none :: rs2)).trace =
      [Cmd.getMore id, Cmd.killCursors id,
       Cmd.aggregate (Stage.changeStream
          { resumeAfter := none, startAfter := none, startAtOperationTime := some ot } ::
        cfg.userPipeline)] := by
  have hno : cfg.noResumeOptions = true := by
    simp [WatchConfig.noResumeOptions, hra, hsa, hot]
  refine ⟨rfl, ?_, ?_, ?_⟩
  · simp [streamOfOpen, hv, hno]
  · simp [streamOfOpen, initialResumeToken, hra, hsa, hot]
  · unfold ChangeStream.next nextLoop nextStep resumeCycle
    simp [streamOfOpen, hid, hres, consumeDoc, hd, installBatch, resumeCsOptions,
      initialResumeToken, buildPipeline, hra, hsa, hot, hv, hno]

theorem c8_witness :
    predatesPbrt sampleConfig.serverVersion = true ∧
    sampleConfig.optResumeAfter = none ∧ sampleConfig.optStartAfter = none ∧
    sampleConfig.optStartAtOperationTime = none ∧
    (1 : Int) ≠ 0 ∧ isResumableError sampleResumableError = true ∧ sampleDoc.id? = some 7 ∧
    (ChangeStream.next (streamOfOpen sampleConfig 1 [] none (some 77))
        (Response.err sampleResumableError :: Response.ok ::
          Response.cursor 2 [sampleDoc] none none :: [])).trace =
      [Cmd.getMore 1, Cmd.killCursors 1,
       Cmd.aggregate (Stage.changeStream
          { resumeAfter := none, startAfter := none, startAtOperationTime := some 77 } ::
        sampleConfig.userPipeline)] := by
  refine ⟨by decide, rfl, rfl, rfl, by decide, by decide, rfl, ?_⟩
  exact (c8_resume_carries_operation_time sampleConfig [] [] 1 2 77 sampleResumableError
    Response.ok sampleDoc 7 (by decide) rfl rfl rfl (by decide) (by decide) rfl).2.2.2

/-- Claim C9: an error returned by the cursor-termination command is
swallowed and never surfaces: a resume cycle whose killCursors reply is an
error still re-opens and yields the next document with `Err()` nil, and
`Close` always transitions to Closed with no error regardless of the
termination reply. -/
theorem c9_killcursors_errors_swallowed (cs : ChangeStream) (rs : List Response)
    (e ke : CmdError) (newID : Int) (d : ChangeDoc) (t : Token)
    (hst : cs.state = StreamState.opened) (herr : cs.err = none)
    (hb : cs.batch = []) (hid : cs.cursorID ≠ 0)
    (hres : isResumableError e = true) (hd : d.id? = some t) :
    ((ChangeStream.next cs
        (Response.err e :: Response.err ke :: Response.cursor newID [d] none none :: rs)).ok
      = true ∧
     (ChangeStream.next cs
        (Response.err e :: Response.err ke ::
          Response.cursor newID [d] none none :: rs)).stream.err
      = none) ∧
    (∀ rs2, (ChangeStream.close cs rs2).stream.err = none ∧
      (ChangeStream.close cs rs2).stream.state = StreamState.closed ∧
      (ChangeStream.close cs rs2).trace = [Cmd.killCursors cs.cursorID]) := by
  constructor
  · unfold ChangeStream.next nextLoop nextStep resumeCycle
    simp [hst, hb, hid, hres, consumeDoc, hd, installBatch, herr]
  · intro rs2
    unfold ChangeStream.close
    rw [hst]
    exact ⟨herr, rfl, rfl⟩

theorem c9_witness :
    sampleStream.state = StreamState.opened ∧ sampleStream.err = none ∧
    sampleStream.batch = [] ∧ sampleStream.cursorID ≠ 0 ∧
    isResumableError sampleResumableError = true ∧ sampleDoc.id? = some 7 ∧
    (ChangeStream.next sampleStream
      (Response.err sampleResumableError :: Response.err sampleKillError ::
        Response.cursor 2 [sampleDoc] none none :: [])).ok = true ∧
    (ChangeStream.close sampleStream (Response.err sampleKillError :: [])).stream.err
      = none := by
  refine ⟨rfl, rfl, rfl, by decide, by decide, rfl, ?_, ?_⟩
  · exact (c9_killcursors_errors_swallowed sampleStream [] sampleResumableError
      sampleKillError 2 sampleDoc 7 rfl rfl rfl (by decide) (by decide) rfl).1.1
  · exact ((c9_killcursors_errors_swallowed sampleStream [] sampleResumableError
      sampleKillError 2 sampleDoc 7 rfl rfl rfl (by decide) (by decide) rfl).2
      (Response.err sampleKillError :: [])).1

/-- Claim C10, counterexample to the claim as stated: the declared
monitoring-event-type constants from `commandStartedEvent` through
`topologyDescriptionChangedEvent` are nineteen values, not eighteen. -/
theorem c10_counterexample_nineteen_constants :
    declaredMonitoringEventTypes.length = 19 ∧
    ¬ declaredMonitoringEventTypes.length = 18 := by
  constructor
  · rfl
  · decide

/-- Claim C10 (amended: the declared constants are nineteen values, not
eighteen): for every function `lower` that agrees with the ASCII map on
all-ASCII strings and is idempotent — two properties of the external
`strings.ToLower` the switch is applied to — and for every declared
monitoring event type constant `t`, `monitoringEventTypeFromString` maps the
string of `t` to `(t, true)`; for every string `s` the result equals the
result on the lowercase of `s`; and every string not matching one of the
declared names case-insensitively yields the empty name and `false`. -/
theorem c10_monitoring_event_type_from_string (lower : String → String)
    (hascii : ∀ s : String, (∀ c ∈ s.data, c.toNat < 128) → lower s = goToLower s)
    (hidem : ∀ s : String, lower (lower s) = lower s) :
    declaredMonitoringEventTypes.length = 19 ∧
    (∀ t, t ∈ declaredMonitoringEventTypes →
      monitoringEventTypeFromString lower t = (t, true)) ∧
    (∀ s, monitoringEventTypeFromString lower s
      = monitoringEventTypeFromString lower (lower s)) ∧
    (∀ s, lower s ∉ declaredMonitoringEventTypes.map lower →
      monitoringEventTypeFromString lower s = ("", false)) := by
  refine ⟨rfl, ?_, ?_, monitoringEventTypeFromString_default lower hascii⟩
  · intro t ht
    have hasc := (by decide :
      ∀ t ∈ declaredMonitoringEventTypes, ∀ c ∈ t.data, c.toNat < 128) t ht
    rw [monitoringEventTypeFromString_ascii lower hascii t hasc]
    exact (by decide :
      ∀ t ∈ declaredMonitoringEventTypes,
        monitoringEventTypeFromString goToLower t = (t, true)) t ht
  · intro s
    simp only [monitoringEventTypeFromString, hidem]

theorem c10_witness :
    (∀ s : String, (∀ c ∈ s.data, c.toNat < 128) → goToLower s = goToLower s) ∧
    (∀ s : String, goToLower (goToLower s) = goToLower s) ∧
    monitoringEventTypeFromString goToLower "CommandStartedEvent"
      = (commandStartedEvent, true) ∧
    (goToLower "NoSuchEvent" ∉ declaredMonitoringEventTypes.map goToLower) ∧
    monitoringEventTypeFromString goToLower "NoSuchEvent" = ("", false) := by
  refine ⟨fun s _ => rfl, goToLower_idem, ?_, by decide, ?_⟩
  · exact (c10_monitoring_event_type_from_string goToLower (fun s _ => rfl)
      goToLower_idem).2.1 "CommandStartedEvent" (by decide)
  · exact (c10_monitoring_event_type_from_string goToLower (fun s _ => rfl)
      goToLower_idem).2.2.2 "NoSuchEvent" (by decide)
